import Mathlib

/-!
Shallow embedding of the single source file src/script.js of this repository
(a browser speech-recognition / translation page, class SpeechRecognitionSystem).

Modelling conventions:
  - DOM element state (status line text, button disabled flags, the transcript
    display, the css class list of the status element, the file-info line) is
    carried in an explicit `State` structure.
  - Host capabilities (the recognizer, the synthesizer, fetch) are external:
    their outcomes enter as explicit parameters (for instance a Bool saying
    whether recognition.start() threw, or an `Option TranslationResponse`
    standing for the parsed fetch result, `none` when fetch or json threw).
  - Every handler of the class becomes a total Lean function on `State`;
    totality models the fact that the JS handler catches its exceptions.
  - String literals are byte-for-byte the literals of src/script.js (the
    sample texts are embedded with their exact code points).
-/

/-- The feedback-message table `this.messages` of the constructor
(src/script.js lines 9-21).  The JS keys PROCESSING_AUDIO and AUDIO_ERROR
are rendered here as PROCESSING_AUDIO_MSG and AUDIO_ERROR_MSG. -/
structure Messages where
  START_PROMPT : String
  RECORDING : String
  STOPPED : String
  ERROR_START : String
  BROWSER_ERROR : String
  NO_SPEECH : String
  NETWORK_ERROR : String
  PERMISSION_ERROR : String
  PROCESSING_AUDIO_MSG : String
  AUDIO_PROCESSED : String
  AUDIO_ERROR_MSG : String

/-- Values of `this.messages` exactly as in the source. -/
def messages : Messages where
  START_PROMPT := "Click \"Start Recording\" to begin"
  RECORDING := "Recording in progress... Speak clearly"
  STOPPED := "Recording stopped. Your transcript is ready."
  ERROR_START := "Error starting recognition. Please try again."
  BROWSER_ERROR := "Speech recognition is not supported in this browser. Please use Chrome or Edge."
  NO_SPEECH := "No speech detected. Please try again."
  NETWORK_ERROR := "Network error. Please check your internet connection."
  PERMISSION_ERROR := "Microphone permission denied. Please allow microphone access."
  PROCESSING_AUDIO_MSG := "Processing audio file..."
  AUDIO_PROCESSED := "Audio file processed successfully."
  AUDIO_ERROR_MSG := "Error processing audio file. Please try another file."

/-- The association `this.languageMapping` (src/script.js lines 24-34), in
JS object-key insertion order, which is the order Object.keys enumerates. -/
def languageMapping : List (String × String) :=
  [("en-US", "en"),
   ("hi-IN", "hi"),
   ("te-IN", "te"),
   ("ta-IN", "ta"),
   ("kn-IN", "kn"),
   ("ml-IN", "ml"),
   ("mr-IN", "mr"),
   ("bn-IN", "bn"),
   ("gu-IN", "gu")]

/-- The table `sampleTexts` of simulateAudioTranscription (src/script.js
lines 200-210).  The non-ASCII literals reproduce, code point by code point,
exactly what the repository file contains. -/
def sampleTexts : List (String × String) :=
  [("hi", "à¤¨à¤®à¤¸à¥à¤¤à¥‡, à¤¯à¤¹ à¤à¤• à¤‘à¤¡à¤¿à¤¯à¥‹ à¤«à¤¼à¤¾à¤‡à¤² à¤¹à¥ˆ à¤œà¤¿à¤¸à¥‡ à¤…à¤ªà¤²à¥‹à¤¡ à¤•à¤¿à¤¯à¤¾ à¤—à¤¯à¤¾ à¤¹à¥ˆà¥¤"),
   ("te", "à°¹à°²à±‹, à°‡à°¦à°¿ à°…à°ªà±à°²à±‹à°¡à± à°šà±‡à°¯à°¬à°¡à°¿à°¨ à°†à°¡à°¿à°¯à±‹ à°«à±ˆà°²à±."),
   ("ta", "à®µà®£à®•à¯à®•à®®à¯, à®‡à®¤à¯ à®ªà®¤à®¿à®µà¯‡à®±à¯à®±à®ªà¯à®ªà®Ÿà¯à®Ÿ à®’à®²à®¿à®•à¯ à®•à¯‹à®ªà¯à®ªà¯."),
   ("kn", "à²¹à²²à³‹, à²‡à²¦à³ à²…à²ªà³à²²à³‹à²¡à³ à²®à²¾à²¡à²²à²¾à²¦ à²†à²¡à²¿à²¯à³‹ à²«à³ˆà²²à³."),
   ("ml", "à´¹à´²àµ‹, à´‡à´¤àµ à´…à´ªàµâ€Œà´²àµ‹à´¡àµ à´šàµ†à´¯àµà´¤ à´“à´¡à´¿à´¯àµ‹ à´«à´¯à´²à´¾à´£àµ."),
   ("mr", "à¤¨à¤®à¤¸à¥à¤•à¤¾à¤°, à¤¹à¥‡ à¤…à¤ªà¤²à¥‹à¤¡ à¤•à¥‡à¤²à¥‡à¤²à¥‡ à¤‘à¤¡à¤¿à¤“ à¤«à¤¾à¤‡à¤² à¤†à¤¹à¥‡."),
   ("bn", "à¦¹à§à¦¯à¦¾à¦²à§‹, à¦à¦Ÿà¦¿ à¦à¦•à¦Ÿà¦¿ à¦†à¦ªà¦²à§‹à¦¡ à¦•à¦°à¦¾ à¦…à¦¡à¦¿à¦“ à¦«à¦¾à¦‡à¦²à¥¤"),
   ("gu", "àª¹à«‡àª²à«‹, àª† àª…àªªàª²à«‹àª¡ àª•àª°à«‡àª²à«€ àª“àª¡àª¿àª¯à«‹ àª«àª¾àª‡àª² àª›à«‡."),
   ("default", "Hello, this is an uploaded audio file that needs to be transcribed and translated.")]

/-- The parsed JSON body of the translation response: `responseStatus` and
`responseData.translatedText` are the only fields the code reads. -/
structure TranslationResponse where
  responseStatus : Int
  translatedText : String

/-- Embedding of translateToEnglish (src/script.js lines 279-297).  The
network interaction is abstracted into the `response` argument: `some r`
means fetch and json resolved to a body parsed as `r`; `none` means fetch or
json threw, landing in the catch block.  In both the non-200 branch and the
catch branch the function returns the input text. -/
def translateToEnglish (text : String) (response : Option TranslationResponse) : String :=
  match response with
  | some data => if data.responseStatus = 200 then data.translatedText else text
  | none => text

/-- Boolean substring containment on character lists, the semantics of the JS
expression `haystack.includes(needle)`: needle is a contiguous run of hay. -/
def listIsInfixOf (needle : List Char) : List Char → Bool
  | [] => needle.isPrefixOf []
  | c :: t => needle.isPrefixOf (c :: t) || listIsInfixOf needle t

/-- Character-wise lowercasing, the semantics of the JS
`filename.toLowerCase()` as the stub applies it (the filenames and the
matched tokens live in the basic plane, where JS and per-char lowercasing
agree). -/
def strToLower (s : String) : List Char :=
  s.toList.map Char.toLower

/-- Prefix test on the underlying characters, the semantics of the JS
expression `s.startsWith(pre)`. -/
def strStartsWith (s pre : String) : Bool :=
  pre.toList.isPrefixOf s.toList

/-- Embedding of simulateAudioTranscription (src/script.js lines 195-219).
JS finds the first languageMapping key whose mapped code is a substring of
the lowercased filename (Object.keys order = insertion order), then indexes
sampleTexts with that code, falling back to the default entry both when no
key matched and when the matched code has no sampleTexts entry (the JS
`|| sampleTexts['default']`, which fires for the code "en"). -/
def simulateAudioTranscription (filename : String) : String :=
  let detected := languageMapping.find? fun p => listIsInfixOf p.2.toList (strToLower filename)
  let sourceLang := match detected with
    | some p => p.2
    | none => "default"
  match sampleTexts.lookup sourceLang with
  | some t => t
  | none => (sampleTexts.lookup "default").getD ""

/-- A selected file as the change handler sees it: `name` is the JS
`file.name`, `mimeType` the JS `file.type`. -/
structure UploadedFile where
  name : String
  mimeType : String
deriving DecidableEq

/-- One entry of a recognition result event: the text of its single
alternative (`event.results[i][0].transcript`) and its `isFinal` flag. -/
structure Fragment where
  transcript : String
  isFinal : Bool

/-- An utterance as handed to the host synthesizer: the fields the code sets
on `new SpeechSynthesisUtterance` before calling speak. -/
structure SpeechSynthesisUtterance where
  text : String
  lang : String
  rate : ℚ
  pitch : ℚ
deriving DecidableEq

/-- Session state plus the DOM-held state the handlers read and write:
instance fields of SpeechRecognitionSystem (isSupported, isRecording,
transcript, uploadedAudio, lastTranslation), the recognizer's configured
language, the two select controls, and the text/disabled/class state of the
status line, transcript display, file-info line and the three buttons. -/
structure State where
  isSupported : Bool
  isRecording : Bool
  transcript : String
  uploadedAudioFile : Option UploadedFile
  lastTranslation : String
  recognitionLang : String
  languageSelectValue : String
  translationLanguageValue : String
  translationLanguageText : String
  statusText : String
  statusHasRecordingClass : Bool
  startButtonDisabled : Bool
  stopButtonDisabled : Bool
  speakButtonDisabled : Bool
  fileInfoText : String
  processAudioButtonDisabled : Bool
  transcriptDisplay : String
deriving DecidableEq

/-- Embedding of updateTranscript (src/script.js lines 258-267).  The JS
truthiness test `if (finalTranscript)` is emptiness of the string; when it
holds, a block `Original: <interim>\n<lang> Translation: <final>\n\n` is
appended to the accumulated transcript; the display element is then set to
the accumulated transcript followed by a transient `Speaking:` line when the
interim text is nonempty. -/
def updateTranscript (finalTranscript interimTranscript : String) (s : State) : State :=
  let s1 :=
    if finalTranscript = "" then s
    else
      { s with
        lastTranslation := finalTranscript
        transcript := s.transcript ++ "Original: " ++ interimTranscript ++ "\n" ++
          s.translationLanguageText ++ " Translation: " ++ finalTranscript ++ "\n\n"
        speakButtonDisabled := false }
  { s1 with
    transcriptDisplay := s1.transcript ++
      (if interimTranscript = "" then "" else "Speaking: " ++ interimTranscript) }

/-- The accumulation loop of the onresult handler (src/script.js lines
69-81): fragments are scanned in order, final ones appending their
translation to the first component, non-final ones appending their raw text
to the second. -/
def processResults (translate : String → String) (results : List Fragment) : String × String :=
  results.foldl
    (fun acc r =>
      if r.isFinal then (acc.1 ++ translate r.transcript, acc.2)
      else (acc.1, acc.2 ++ r.transcript))
    ("", "")

/-- Embedding of the onresult handler (src/script.js lines 68-84).
`respond t` is the outcome of the translation request the handler awaits for
the final fragment text `t`. -/
def onresult (respond : String → Option TranslationResponse)
    (results : List Fragment) (s : State) : State :=
  let p := processResults (fun t => translateToEnglish t (respond t)) results
  updateTranscript p.1 p.2 s

/-- Embedding of the onnomatch handler (src/script.js lines 86-88). -/
def onnomatch (s : State) : State :=
  { s with statusText := messages.NO_SPEECH }

/-- Embedding of stopRecording (src/script.js lines 241-256).  `stopThrows`
says whether `recognition.stop()` threw: the call is the first statement of
the try block, so a throw skips every state update and the catch block only
logs, leaving the state untouched. -/
def stopRecording (stopThrows : Bool) (s : State) : State :=
  if s.isSupported = false then s
  else if stopThrows = true then s
  else
    { s with
      isRecording := false
      startButtonDisabled := false
      stopButtonDisabled := true
      statusText := messages.STOPPED
      statusHasRecordingClass := false }

/-- Embedding of the onerror handler (src/script.js lines 90-99): picks one
of three fixed messages from the error code, writes it to the status line,
then calls stopRecording. -/
def onerror (errorCode : String) (stopThrows : Bool) (s : State) : State :=
  let errorMessage :=
    if errorCode = "network" then messages.NETWORK_ERROR
    else if errorCode = "not-allowed" then messages.PERMISSION_ERROR
    else messages.ERROR_START
  stopRecording stopThrows { s with statusText := errorMessage }

/-- Embedding of startRecording (src/script.js lines 221-239).  The
recognizer language assignment precedes `recognition.start()`, so it happens
even when start throws; a throw skips the remaining updates and the catch
block writes the generic start-error message. -/
def startRecording (startThrows : Bool) (s : State) : State :=
  if s.isSupported = false then { s with statusText := messages.BROWSER_ERROR }
  else
    let s1 := { s with recognitionLang := s.languageSelectValue }
    if startThrows = true then { s1 with statusText := messages.ERROR_START }
    else
      { s1 with
        isRecording := true
        startButtonDisabled := true
        stopButtonDisabled := false
        statusText := messages.RECORDING
        statusHasRecordingClass := true }

/-- Embedding of handleFileSelect (src/script.js lines 134-151), taking the
selected file of the change event (`none` when `event.target.files[0]` is
absent). -/
def handleFileSelect (file : Option UploadedFile) (s : State) : State :=
  match file with
  | some f =>
    if strStartsWith f.mimeType "audio/" then
      { s with
        uploadedAudioFile := some f
        fileInfoText := "Selected: " ++ f.name
        processAudioButtonDisabled := false }
    else
      { s with
        fileInfoText := "Please select an audio file"
        processAudioButtonDisabled := true
        uploadedAudioFile := none }
  | none =>
    { s with
      fileInfoText := "No file selected"
      processAudioButtonDisabled := true
      uploadedAudioFile := none }

/-- Embedding of speakTranslation (src/script.js lines 269-277).  The value
is the utterance handed to `speechSynthesis.speak`, or `none` when the guard
`this.lastTranslation && !this.speechSynthesis.speaking` fails and the call
is a no-op.  No state field is written in either case, and no queue exists:
at most one utterance results from one call. -/
def speakTranslation (s : State) (synthesisSpeaking : Bool) : Option SpeechSynthesisUtterance :=
  if s.lastTranslation ≠ "" ∧ synthesisSpeaking = false then
    some
      { text := s.lastTranslation
        lang := if s.translationLanguageValue = "en" then "en-US" else s.translationLanguageValue
        rate := 0.9
        pitch := 1 }
  else none

/-- How far the file-read and audio-decode of processAudioFile got:
reader.onerror fired, `decodeAudioData` threw inside the try block, or the
decode succeeded. -/
inductive AudioReadOutcome where
  | readFailure
  | decodeFailure
  | decoded

/-- Embedding of processAudioFile (src/script.js lines 153-192): a no-op
without an uploaded file; otherwise the status is set to the processing
message and the read/decode outcome either ends in the audio-error message
or runs the transcription stub, translates its text, appends via
updateTranscript and reports success. -/
def processAudioFile (outcome : AudioReadOutcome)
    (respond : String → Option TranslationResponse) (s : State) : State :=
  match s.uploadedAudioFile with
  | none => s
  | some f =>
    let s1 := { s with statusText := messages.PROCESSING_AUDIO_MSG }
    match outcome with
    | .readFailure => { s1 with statusText := messages.AUDIO_ERROR_MSG }
    | .decodeFailure => { s1 with statusText := messages.AUDIO_ERROR_MSG }
    | .decoded =>
      let transcriptText := simulateAudioTranscription f.name
      let translatedText := translateToEnglish transcriptText (respond transcriptText)
      let s2 := updateTranscript translatedText transcriptText s1
      { s2 with statusText := messages.AUDIO_PROCESSED }

/-- Embedding of the languageSelect change listener (src/script.js lines
119-123): the control now holds `newValue`; when recognition is supported
the recognizer language is set from it. -/
def onLanguageSelectChange (newValue : String) (s : State) : State :=
  let s1 := { s with languageSelectValue := newValue }
  if s1.isSupported then { s1 with recognitionLang := newValue } else s1

/-- Embedding of the translationLanguage change listener (src/script.js
lines 124-127): the control now holds `newValue` with display text
`newText`; the listener itself only relabels the speak button. -/
def onTranslationLanguageChange (newValue newText : String) (s : State) : State :=
  { s with translationLanguageValue := newValue, translationLanguageText := newText }

/-- The state-mutating operations of the system: every handler of
SpeechRecognitionSystem that can write a session or DOM state field, with
the external outcomes it depends on as constructor arguments. -/
inductive Op where
  | opStartRecording (startThrows : Bool)
  | opStopRecording (stopThrows : Bool)
  | opOnresult (respond : String → Option TranslationResponse) (results : List Fragment)
  | opOnnomatch
  | opOnerror (errorCode : String) (stopThrows : Bool)
  | opHandleFileSelect (file : Option UploadedFile)
  | opProcessAudioFile (outcome : AudioReadOutcome) (respond : String → Option TranslationResponse)
  | opLanguageSelectChange (newValue : String)
  | opTranslationLanguageChange (newValue newText : String)
  | opSpeakTranslation (synthesisSpeaking : Bool)

/-- One event-loop turn: dispatches an operation to its handler.
speakTranslation writes no state field, so its step is the identity. -/
def step : Op → State → State
  | .opStartRecording b, s => startRecording b s
  | .opStopRecording b, s => stopRecording b s
  | .opOnresult respond results, s => onresult respond results s
  | .opOnnomatch, s => onnomatch s
  | .opOnerror e b, s => onerror e b s
  | .opHandleFileSelect f, s => handleFileSelect f s
  | .opProcessAudioFile o respond, s => processAudioFile o respond s
  | .opLanguageSelectChange v, s => onLanguageSelectChange v s
  | .opTranslationLanguageChange v t, s => onTranslationLanguageChange v t s
  | .opSpeakTranslation _, s => s

/-- Concatenation of a list of strings in order, used to characterize the
accumulation loop of onresult. -/
def concatStrings : List String → String
  | [] => ""
  | x :: t => x ++ concatStrings t

/-- The value the local variable finalTranscript of the onresult handler has
after its loop: translations of the final fragments, in order. -/
def finalPart (respond : String → Option TranslationResponse)
    (results : List Fragment) : String :=
  (processResults (fun t => translateToEnglish t (respond t)) results).1

/-- The value the local variable interimTranscript of the onresult handler
has after its loop: raw texts of the non-final fragments, in order. -/
def interimPart (respond : String → Option TranslationResponse)
    (results : List Fragment) : String :=
  (processResults (fun t => translateToEnglish t (respond t)) results).2

/-- A concrete example state: recognition supported and in progress, with
the source language hi-IN and target language English, as after a
successful startRecording on a fresh page. -/
def recordingState : State where
  isSupported := true
  isRecording := true
  transcript := ""
  uploadedAudioFile := none
  lastTranslation := ""
  recognitionLang := "hi-IN"
  languageSelectValue := "hi-IN"
  translationLanguageValue := "en"
  translationLanguageText := "English"
  statusText := messages.RECORDING
  statusHasRecordingClass := true
  startButtonDisabled := true
  stopButtonDisabled := false
  speakButtonDisabled := true
  fileInfoText := "No file selected"
  processAudioButtonDisabled := true
  transcriptDisplay := ""

/-- A concrete example state: recognition supported but idle, as on a fresh
page before any recording. -/
def idleState : State :=
  { recordingState with
    isRecording := false
    statusText := messages.START_PROMPT
    statusHasRecordingClass := false
    startButtonDisabled := false
    stopButtonDisabled := true }

/-- C1: translateToEnglish returns responseData.translatedText exactly when
the parsed response carries responseStatus = 200; for any other status, and
when fetch or json throw (response = none), it returns the input text
unchanged.  The function is total and takes no retry path: one response
value determines the result. -/
theorem translateToEnglish_spec (text : String) (resp : Option TranslationResponse) :
    (∀ data, resp = some data → data.responseStatus = 200 →
      translateToEnglish text resp = data.translatedText) ∧
    (∀ data, resp = some data → data.responseStatus ≠ 200 →
      translateToEnglish text resp = text) ∧
    (resp = none → translateToEnglish text resp = text) := by
  refine ⟨?_, ?_, ?_⟩
  · intro data hd h200
    subst hd
    simp [translateToEnglish, h200]
  · intro data hd hne
    subst hd
    simp [translateToEnglish, hne]
  · intro hd
    subst hd
    rfl

/-- Witness for C1: a 200 response yields its translatedText, a 500 response
and a thrown fetch yield the input text. -/
theorem translateToEnglish_spec_witness :
    translateToEnglish "hola" (some ⟨200, "hello"⟩) = "hello" ∧
    translateToEnglish "hola" (some ⟨500, "hello"⟩) = "hola" ∧
    translateToEnglish "hola" none = "hola" :=
  ⟨(translateToEnglish_spec "hola" (some ⟨200, "hello"⟩)).1 ⟨200, "hello"⟩ rfl rfl,
   (translateToEnglish_spec "hola" (some ⟨500, "hello"⟩)).2.1 ⟨500, "hello"⟩ rfl (by decide),
   (translateToEnglish_spec "hola" none).2.2 rfl⟩

/-- C3 counterexample: with recognition supported and a stop() that does not
throw, the onerror handler for the code network ends with the status line
showing the STOPPED message, not the fixed network-error message the claim
demands: stopRecording, called last, overwrites the error message. -/
theorem onerror_overwrite_counterexample :
    (onerror "network" false recordingState).statusText = messages.STOPPED ∧
    messages.STOPPED ≠ messages.NETWORK_ERROR := by
  constructor
  · rfl
  · decide

/-- C3 amended: the handler maps the error code to one of the three fixed
messages (network, not-allowed, otherwise generic) and writes it to the
status line, then forces a stop; but when recognition is supported and
stop() does not throw, stopRecording overwrites the status with the STOPPED
message, so that fixed error message remains displayed only when stop()
throws or recognition is unsupported. -/
theorem onerror_amended (errorCode : String) (stopThrows : Bool) (s : State) :
    (onerror errorCode stopThrows s).statusText =
      (if s.isSupported && !stopThrows then messages.STOPPED
       else if errorCode = "network" then messages.NETWORK_ERROR
       else if errorCode = "not-allowed" then messages.PERMISSION_ERROR
       else messages.ERROR_START) ∧
    (onerror errorCode stopThrows s).isRecording =
      (if s.isSupported && !stopThrows then false else s.isRecording) ∧
    (onerror errorCode stopThrows s).transcript = s.transcript := by
  cases hsup : s.isSupported <;> cases stopThrows <;>
    simp [onerror, stopRecording, hsup]

/-- C4 counterexample: a stop() failure leaves the status line untouched (it
still shows the recording message), so no generic status message is
surfaced, contrary to the claim: the catch block of stopRecording only
logs. -/
theorem stopRecording_throw_counterexample :
    (stopRecording true recordingState).statusText = messages.RECORDING ∧
    messages.RECORDING ≠ messages.ERROR_START ∧
    messages.RECORDING ≠ messages.STOPPED ∧
    messages.RECORDING ≠ messages.BROWSER_ERROR := by
  refine ⟨rfl, by decide, by decide, by decide⟩

/-- C4 amended: start() and stop() failures are caught and never propagate
(both handlers are total); a start() failure surfaces the generic
start-error status message (with recognition supported), while a stop()
failure is swallowed silently, leaving the whole state unchanged. -/
theorem startStopFailure_amended (s : State) :
    stopRecording true s = s ∧
    (startRecording true s).statusText =
      (if s.isSupported then messages.ERROR_START else messages.BROWSER_ERROR) := by
  constructor
  · unfold stopRecording
    split
    · rfl
    · simp
  · cases hsup : s.isSupported <;> simp [startRecording, hsup]

/-- C6: selecting a file with a non-audio MIME type disables the process
action, writes the fixed file-info message and resets the stored upload
state to none, whatever was selected before. -/
theorem handleFileSelect_nonaudio (f : UploadedFile) (s : State)
    (h : strStartsWith f.mimeType "audio/" = false) :
    (handleFileSelect (some f) s).processAudioButtonDisabled = true ∧
    (handleFileSelect (some f) s).fileInfoText = "Please select an audio file" ∧
    (handleFileSelect (some f) s).uploadedAudioFile = none := by
  simp [handleFileSelect, h]

/-- Witness for C6: a pdf selected after an audio file was already stored. -/
theorem handleFileSelect_nonaudio_witness :
    (handleFileSelect (some ⟨"notes.pdf", "application/pdf"⟩)
      { idleState with uploadedAudioFile := some ⟨"song.mp3", "audio/mpeg"⟩ }).processAudioButtonDisabled = true ∧
    (handleFileSelect (some ⟨"notes.pdf", "application/pdf"⟩)
      { idleState with uploadedAudioFile := some ⟨"song.mp3", "audio/mpeg"⟩ }).fileInfoText = "Please select an audio file" ∧
    (handleFileSelect (some ⟨"notes.pdf", "application/pdf"⟩)
      { idleState with uploadedAudioFile := some ⟨"song.mp3", "audio/mpeg"⟩ }).uploadedAudioFile = none :=
  handleFileSelect_nonaudio ⟨"notes.pdf", "application/pdf"⟩
    { idleState with uploadedAudioFile := some ⟨"song.mp3", "audio/mpeg"⟩ } (by decide)

/-- C7: a synthesis request while the synthesizer is speaking is a no-op
(no utterance is produced, and speakTranslation writes no state, so the
active utterance is untouched); when the synthesizer is idle and a last
translation exists, exactly one utterance is produced, with rate 0.9 and
pitch 1. -/
theorem speakTranslation_spec (s : State) (synthesisSpeaking : Bool) :
    (synthesisSpeaking = true → speakTranslation s synthesisSpeaking = none) ∧
    (synthesisSpeaking = false → s.lastTranslation ≠ "" →
      speakTranslation s synthesisSpeaking =
        some ⟨s.lastTranslation,
          if s.translationLanguageValue = "en" then "en-US" else s.translationLanguageValue,
          0.9, 1⟩) := by
  constructor
  · intro h
    simp [speakTranslation, h]
  · intro h hne
    simp [speakTranslation, h, hne]

/-- Witness for C7: with the last translation set, a busy synthesizer gets
nothing and an idle one gets the single 0.9-rate utterance. -/
theorem speakTranslation_spec_witness :
    speakTranslation { idleState with lastTranslation := "hello" } true = none ∧
    speakTranslation { idleState with lastTranslation := "hello" } false =
      some ⟨"hello", "en-US", 0.9, 1⟩ := by
  constructor
  · exact (speakTranslation_spec { idleState with lastTranslation := "hello" } true).1 rfl
  · have h := (speakTranslation_spec { idleState with lastTranslation := "hello" } false).2 rfl
      (by decide)
    simpa [idleState, recordingState] using h

/-- C10: when recognition is supported, recording is off and start() throws,
startRecording changes nothing observable except writing the generic
start-error message to the status line: the recording flag stays false, the
two buttons and the recording css class keep their values, and transcript,
last translation and upload state are untouched. -/
theorem startRecording_throw_atomic (s : State)
    (hsup : s.isSupported = true) (hrec : s.isRecording = false) :
    (startRecording true s).isRecording = false ∧
    (startRecording true s).startButtonDisabled = s.startButtonDisabled ∧
    (startRecording true s).stopButtonDisabled = s.stopButtonDisabled ∧
    (startRecording true s).statusHasRecordingClass = s.statusHasRecordingClass ∧
    (startRecording true s).statusText = messages.ERROR_START ∧
    (startRecording true s).transcript = s.transcript ∧
    (startRecording true s).lastTranslation = s.lastTranslation ∧
    (startRecording true s).uploadedAudioFile = s.uploadedAudioFile := by
  simp [startRecording, hsup, hrec]

/-- Witness for C10: the idle example state with a throwing start(). -/
theorem startRecording_throw_atomic_witness :
    (startRecording true idleState).isRecording = false ∧
    (startRecording true idleState).startButtonDisabled = idleState.startButtonDisabled ∧
    (startRecording true idleState).stopButtonDisabled = idleState.stopButtonDisabled ∧
    (startRecording true idleState).statusHasRecordingClass = idleState.statusHasRecordingClass ∧
    (startRecording true idleState).statusText = messages.ERROR_START ∧
    (startRecording true idleState).transcript = idleState.transcript ∧
    (startRecording true idleState).lastTranslation = idleState.lastTranslation ∧
    (startRecording true idleState).uploadedAudioFile = idleState.uploadedAudioFile :=
  startRecording_throw_atomic idleState rfl rfl

/-- Bridging lemma: the executable substring test agrees with the
contiguous-sublist relation. -/
theorem listIsInfixOf_iff (l1 l2 : List Char) :
    listIsInfixOf l1 l2 = true ↔ l1 <:+: l2 := by
  induction l2 with
  | nil => simp [listIsInfixOf, List.isPrefixOf_iff_prefix, List.prefix_nil, List.infix_nil]
  | cons c t ih =>
      simp [listIsInfixOf, List.isPrefixOf_iff_prefix, ih, List.infix_cons_iff]

/-- C5: the transcription stub returns the Hindi sample for
audio_hi_sample.mp3 and the English fallback for clip.mp3, and the two
differ; in general it selects the sample of the first mapped language code
occurring case-insensitively in the filename, falling back to the default
sample when no code occurs in it. -/
theorem simulateAudioTranscription_spec (filename : String) :
    simulateAudioTranscription "audio_hi_sample.mp3" = (sampleTexts.lookup "hi").getD "" ∧
    simulateAudioTranscription "clip.mp3" = (sampleTexts.lookup "default").getD "" ∧
    (sampleTexts.lookup "hi").getD "" ≠ (sampleTexts.lookup "default").getD "" ∧
    ((∀ p ∈ languageMapping, ¬ p.2.toList <:+: strToLower filename) →
      simulateAudioTranscription filename = (sampleTexts.lookup "default").getD "") ∧
    (∀ p t,
      languageMapping.find? (fun q => listIsInfixOf q.2.toList (strToLower filename)) = some p →
      sampleTexts.lookup p.2 = some t →
      simulateAudioTranscription filename = t) := by
  refine ⟨by rfl, by rfl, by decide, ?_, ?_⟩
  · intro h
    have hfind : (languageMapping.find?
        fun p => listIsInfixOf p.2.toList (strToLower filename)) = none := by
      rw [List.find?_eq_none]
      intro p hp
      simpa [listIsInfixOf_iff] using h p hp
    simp only [simulateAudioTranscription, hfind]
    cases hl : sampleTexts.lookup "default" <;> simp [hl]
  · intro p t hfind hlook
    simp only [simulateAudioTranscription, hfind, hlook]

/-- Witness for C5: a filename with no language token falls back, a filename
carrying the token ta selects the Tamil sample. -/
theorem simulateAudioTranscription_spec_witness :
    simulateAudioTranscription "xyz.wav" = (sampleTexts.lookup "default").getD "" ∧
    simulateAudioTranscription "speech_ta_demo.ogg" = (sampleTexts.lookup "ta").getD "" := by
  constructor
  · exact (simulateAudioTranscription_spec "xyz.wav").2.2.2.1 (by decide)
  · exact (simulateAudioTranscription_spec "speech_ta_demo.ogg").2.2.2.2 ("ta-IN", "ta")
      ((sampleTexts.lookup "ta").getD "") (by rfl) (by rfl)

/-- The accumulation loop of onresult characterized: finalTranscript is the
ordered concatenation of the translations of the final fragments,
interimTranscript the ordered concatenation of the non-final raw texts. -/
theorem processResults_eq (translate : String → String) (results : List Fragment) :
    processResults translate results =
      (concatStrings ((results.filter fun r => r.isFinal).map fun r => translate r.transcript),
       concatStrings ((results.filter fun r => !r.isFinal).map fun r => r.transcript)) := by
  have go : ∀ (rs : List Fragment) (a b : String),
      rs.foldl
        (fun acc r =>
          if r.isFinal then (acc.1 ++ translate r.transcript, acc.2)
          else (acc.1, acc.2 ++ r.transcript)) (a, b) =
      (a ++ concatStrings ((rs.filter fun r => r.isFinal).map fun r => translate r.transcript),
       b ++ concatStrings ((rs.filter fun r => !r.isFinal).map fun r => r.transcript)) := by
    intro rs
    induction rs with
    | nil => intro a b; simp [concatStrings]
    | cons r rest ih =>
        intro a b
        cases hr : r.isFinal <;> simp [hr, ih, concatStrings, String.append_assoc]
  simpa [processResults] using go results "" ""

/-- updateTranscript leaves the accumulated transcript alone for an empty
final text and otherwise appends exactly one block, in which the interim
text precedes the translated text. -/
theorem updateTranscript_transcript (f i : String) (s : State) :
    (updateTranscript f i s).transcript =
      (if f = "" then s.transcript
       else s.transcript ++ ("Original: " ++ i ++ "\n" ++
         s.translationLanguageText ++ " Translation: " ++ f ++ "\n\n")) := by
  by_cases hf : f = "" <;> simp [updateTranscript, hf, String.append_assoc]

/-- The display element always ends up holding the accumulated transcript
followed by the transient Speaking line (empty when no interim text). -/
theorem updateTranscript_display (f i : String) (s : State) :
    (updateTranscript f i s).transcriptDisplay =
      (updateTranscript f i s).transcript ++
        (if i = "" then "" else "Speaking: " ++ i) := by
  by_cases hf : f = "" <;> simp [updateTranscript, hf]

/-- updateTranscript does not touch the target-language label. -/
theorem updateTranscript_lang (f i : String) (s : State) :
    (updateTranscript f i s).translationLanguageText = s.translationLanguageText := by
  by_cases hf : f = "" <;> simp [updateTranscript, hf]

/-- C2: in one result event the final fragments' translations are
accumulated in order into the final text and, when that text is nonempty,
appended to the transcript as one block in which the interim (untranslated)
text precedes the translated text; an event of only non-final fragments
leaves the transcript unchanged; and the display always equals the
accumulated transcript followed by the transient Speaking line, so the
interim line is replaced, never appended. -/
theorem onresult_spec (respond : String → Option TranslationResponse)
    (results : List Fragment) (s : State) :
    finalPart respond results =
      concatStrings ((results.filter fun r => r.isFinal).map
        fun r => translateToEnglish r.transcript (respond r.transcript)) ∧
    (finalPart respond results ≠ "" →
      (onresult respond results s).transcript =
        s.transcript ++ ("Original: " ++ interimPart respond results ++ "\n" ++
          s.translationLanguageText ++ " Translation: " ++ finalPart respond results ++ "\n\n")) ∧
    ((∀ r ∈ results, r.isFinal = false) →
      (onresult respond results s).transcript = s.transcript) ∧
    (onresult respond results s).transcriptDisplay =
      (onresult respond results s).transcript ++
        (if interimPart respond results = "" then ""
         else "Speaking: " ++ interimPart respond results) := by
  refine ⟨?_, ?_, ?_, ?_⟩
  · simp [finalPart, processResults_eq]
  · intro hne
    have h := updateTranscript_transcript (finalPart respond results)
      (interimPart respond results) s
    rw [if_neg hne] at h
    simpa [onresult, finalPart, interimPart] using h
  · intro hall
    have hf : finalPart respond results = "" := by
      have hfilter : results.filter (fun r => r.isFinal) = [] := by
        rw [List.filter_eq_nil_iff]
        intro r hr
        simp [hall r hr]
      simp [finalPart, processResults_eq, hfilter, concatStrings]
    have h := updateTranscript_transcript (finalPart respond results)
      (interimPart respond results) s
    rw [if_pos hf] at h
    simpa [onresult, finalPart, interimPart] using h
  · have h := updateTranscript_display (finalPart respond results)
      (interimPart respond results) s
    simpa [onresult, finalPart, interimPart] using h

/-- Witness for C2: an event with one final and one interim fragment appends
the block, an event with only an interim fragment leaves the transcript
empty. -/
theorem onresult_spec_witness :
    (onresult (fun _ => some ⟨200, "hello"⟩) [⟨"hola", true⟩, ⟨"mun", false⟩]
      idleState).transcript =
      idleState.transcript ++ ("Original: " ++ interimPart (fun _ => some ⟨200, "hello"⟩)
        [⟨"hola", true⟩, ⟨"mun", false⟩] ++ "\n" ++ idleState.translationLanguageText ++
        " Translation: " ++ finalPart (fun _ => some ⟨200, "hello"⟩)
        [⟨"hola", true⟩, ⟨"mun", false⟩] ++ "\n\n") ∧
    (onresult (fun _ => some ⟨200, "x"⟩) [⟨"hola", false⟩] idleState).transcript =
      idleState.transcript := by
  constructor
  · exact (onresult_spec (fun _ => some ⟨200, "hello"⟩) [⟨"hola", true⟩, ⟨"mun", false⟩]
      idleState).2.1 (by decide)
  · exact (onresult_spec (fun _ => some ⟨200, "x"⟩) [⟨"hola", false⟩]
      idleState).2.2.1 (by decide)

/-- startRecording never writes the transcript. -/
theorem startRecording_transcript (b : Bool) (s : State) :
    (startRecording b s).transcript = s.transcript := by
  cases hsup : s.isSupported <;> cases b <;> simp [startRecording, hsup]

/-- stopRecording never writes the transcript. -/
theorem stopRecording_transcript (b : Bool) (s : State) :
    (stopRecording b s).transcript = s.transcript := by
  cases hsup : s.isSupported <;> cases b <;> simp [stopRecording, hsup]

/-- The onerror handler never writes the transcript. -/
theorem onerror_transcript (e : String) (b : Bool) (s : State) :
    (onerror e b s).transcript = s.transcript := by
  simp [onerror, stopRecording_transcript]

/-- handleFileSelect never writes the transcript. -/
theorem handleFileSelect_transcript (file : Option UploadedFile) (s : State) :
    (handleFileSelect file s).transcript = s.transcript := by
  cases file with
  | none => rfl
  | some f =>
      by_cases h : strStartsWith f.mimeType "audio/" = true <;>
        simp [handleFileSelect, h]

/-- The onresult handler only ever appends to the transcript. -/
theorem onresult_transcript_grows (respond : String → Option TranslationResponse)
    (results : List Fragment) (s : State) :
    ∃ t, (onresult respond results s).transcript = s.transcript ++ t := by
  simp only [onresult]
  rw [updateTranscript_transcript]
  by_cases hf : (processResults (fun t => translateToEnglish t (respond t)) results).1 = ""
  · exact ⟨"", by rw [if_pos hf, String.append_empty]⟩
  · exact ⟨_, if_neg hf⟩

/-- processAudioFile only ever appends to the transcript. -/
theorem processAudioFile_transcript_grows (o : AudioReadOutcome)
    (respond : String → Option TranslationResponse) (s : State) :
    ∃ t, (processAudioFile o respond s).transcript = s.transcript ++ t := by
  cases hup : s.uploadedAudioFile with
  | none => exact ⟨"", by simp [processAudioFile, hup]⟩
  | some f =>
      cases o with
      | readFailure => exact ⟨"", by simp [processAudioFile, hup]⟩
      | decodeFailure => exact ⟨"", by simp [processAudioFile, hup]⟩
      | decoded =>
          simp only [processAudioFile, hup]
          rw [updateTranscript_transcript]
          by_cases hA : translateToEnglish (simulateAudioTranscription f.name)
              (respond (simulateAudioTranscription f.name)) = ""
          · exact ⟨"", by rw [if_pos hA]; simp⟩
          · exact ⟨_, by rw [if_neg hA]⟩

/-- C8: the transcript only grows.  Over every state-mutating operation of
the system, the transcript before the step is a prefix of the transcript
after it: no handler truncates, replaces or edits it in place. -/
theorem transcript_only_grows (op : Op) (s : State) :
    ∃ t, (step op s).transcript = s.transcript ++ t := by
  cases op with
  | opStartRecording b =>
      exact ⟨"", by simp only [step, startRecording_transcript, String.append_empty]⟩
  | opStopRecording b =>
      exact ⟨"", by simp only [step, stopRecording_transcript, String.append_empty]⟩
  | opOnresult respond results => exact onresult_transcript_grows respond results s
  | opOnnomatch =>
      exact ⟨"", by simp only [step, onnomatch, String.append_empty]⟩
  | opOnerror e b =>
      exact ⟨"", by simp only [step, onerror_transcript, String.append_empty]⟩
  | opHandleFileSelect file =>
      exact ⟨"", by simp only [step, handleFileSelect_transcript, String.append_empty]⟩
  | opProcessAudioFile o respond => exact processAudioFile_transcript_grows o respond s
  | opLanguageSelectChange v =>
      refine ⟨"", ?_⟩
      rw [String.append_empty]
      simp only [step, onLanguageSelectChange]
      split <;> rfl
  | opTranslationLanguageChange v t =>
      exact ⟨"", by simp only [step, onTranslationLanguageChange, String.append_empty]⟩
  | opSpeakTranslation b =>
      exact ⟨"", by simp only [step, String.append_empty]⟩

/-- One result event carrying a single finalized fragment with a nonempty
translation appends exactly its block and keeps the target-language label. -/
theorem onresult_single_final (respond : String → Option TranslationResponse)
    (a : String) (s : State) (ha : translateToEnglish a (respond a) ≠ "") :
    (onresult respond [⟨a, true⟩] s).transcript =
      s.transcript ++ ("Original: " ++ "\n" ++ s.translationLanguageText ++
        " Translation: " ++ translateToEnglish a (respond a) ++ "\n\n") ∧
    (onresult respond [⟨a, true⟩] s).translationLanguageText = s.translationLanguageText := by
  have e : processResults (fun t => translateToEnglish t (respond t)) [⟨a, true⟩] =
      (translateToEnglish a (respond a), "") := by
    simp [processResults]
  constructor
  · simp only [onresult, e]
    rw [updateTranscript_transcript, if_neg ha]
    simp
  · simp [onresult, updateTranscript_lang]

/-- C9: two finalized results delivered in sequence append their two
translation blocks in emission order with no loss: the transcript after
both events is the one before them, followed by the first result's block,
followed by the second's. -/
theorem sequential_final_results (respond1 respond2 : String → Option TranslationResponse)
    (a b : String) (s : State)
    (ha : translateToEnglish a (respond1 a) ≠ "")
    (hb : translateToEnglish b (respond2 b) ≠ "") :
    (onresult respond2 [⟨b, true⟩] (onresult respond1 [⟨a, true⟩] s)).transcript =
      s.transcript ++
        ("Original: " ++ "\n" ++ s.translationLanguageText ++ " Translation: " ++
          translateToEnglish a (respond1 a) ++ "\n\n") ++
        ("Original: " ++ "\n" ++ s.translationLanguageText ++ " Translation: " ++
          translateToEnglish b (respond2 b) ++ "\n\n") := by
  obtain ⟨h1t, h1l⟩ := onresult_single_final respond1 a s ha
  obtain ⟨h2t, _⟩ := onresult_single_final respond2 b (onresult respond1 [⟨a, true⟩] s) hb
  rw [h2t, h1l, h1t]

/-- Witness for C9: two concrete finalized fragments with 200 responses. -/
theorem sequential_final_results_witness :
    (onresult (fun _ => some ⟨200, "two"⟩) [⟨"do", true⟩]
      (onresult (fun _ => some ⟨200, "one"⟩) [⟨"ek", true⟩] idleState)).transcript =
      idleState.transcript ++
        ("Original: " ++ "\n" ++ idleState.translationLanguageText ++ " Translation: " ++
          translateToEnglish "ek" (some ⟨200, "one"⟩) ++ "\n\n") ++
        ("Original: " ++ "\n" ++ idleState.translationLanguageText ++ " Translation: " ++
          translateToEnglish "do" (some ⟨200, "two"⟩) ++ "\n\n") :=
  sequential_final_results (fun _ => some ⟨200, "one"⟩) (fun _ => some ⟨200, "two"⟩)
    "ek" "do" idleState (by decide) (by decide)
